import Mathlib

/-!
Shallow embedding of the read-only database query engine in `src/app/main.go`
(package main of the codecrafters sqlite challenge implementation).

Modelling conventions:
* The database file is a `List Nat` of byte values; `readBytesAtOffset`
  normalises every byte it returns with `% 256`, mirroring the fact that Go
  reads `[]byte` (uint8) values.
* Go machine integers are modelled as `Int` with explicit wrapping
  (`wrap32` for `int32`, `toInt64` for reinterpreting a varint bit pattern
  as a signed `int64`).  Varint accumulation never exceeds 64 bits
  (8 bytes x 7 bits + 1 byte x 8 bits = 64), so the `Nat` accumulator in
  `varintLoop` is exact.
* A Go runtime panic (out-of-range slice, index out of range, negative
  `make` length) aborts the whole query; the traversal functions therefore
  return `Option` results with `none` denoting a panic, and callers
  propagate `none`.  I/O errors are NOT panics: following the source they
  yield zero values (`some []`, `some 0`, ...) and traversal continues.
* Recursive B-tree walks take an explicit `fuel : Nat` parameter because an
  adversarial page graph can be cyclic; the Go source would recurse forever
  there.  All theorems either quantify over `fuel` or use a concrete fuel
  large enough for the concrete file.
-/

set_option maxRecDepth 20000

/-- Reinterpret the low `w` bits of `n` as a `w`-bit two's-complement signed
integer (as Go's `int8(...)`, `int16(...)`, ... conversions do). -/
def toSigned (w : Nat) (n : Nat) : Int :=
  let m := n % 2 ^ w
  if m < 2 ^ (w - 1) then (m : Int) else (m : Int) - 2 ^ w

/-- Go `int64` view of the 64-bit pattern accumulated by `readVarint`. -/
def toInt64 (n : Nat) : Int := toSigned 64 n

/-- Wrap an integer to Go `int32` range (two's complement). -/
def wrap32 (i : Int) : Int :=
  let m := i % 2 ^ 32
  if m < 2 ^ 31 then m else m - 2 ^ 32

/-- Big-endian unsigned integer from the first `n` bytes of `bytes`
(`binary.BigEndian.Uint16/32/64`; callers always supply exactly `n` bytes). -/
def beUint (bytes : List Nat) (n : Nat) : Nat :=
  (List.range n).foldl (fun a i => a * 256 + bytes.getD i 0 % 256) 0

/-- Arithmetic shift right on `Int` (Go `>>` on a signed integer):
floor division by `2 ^ k`. -/
def sar (i : Int) (k : Nat) : Int := Int.fdiv i (2 ^ k)

/-- Go slice expression `data[lo:hi]`: panics (`none`) unless
`0 <= lo <= hi <= len(data)`. -/
def goSlice (data : List Nat) (lo hi : Int) : Option (List Nat) :=
  if 0 ≤ lo ∧ lo ≤ hi ∧ hi ≤ (data.length : Int) then
    some ((data.drop lo.toNat).take (hi - lo).toNat)
  else none

/-- Function `readBytesAtOffset` from the source: seek + full read of `numBytes`
bytes; any seek error (negative offset) or short read yields an error
(`none`).  A zero-length read succeeds wherever the seek does. -/
def readBytesAtOffset (file : List Nat) (offset : Int) (numBytes : Nat) :
    Option (List Nat) :=
  if offset < 0 then none
  else if numBytes = 0 then some []
  else if offset.toNat + numBytes ≤ file.length then
    some (((file.drop offset.toNat).take numBytes).map (· % 256))
  else none

/-- Loop body of `readVarint`: `i` is the Go loop counter, `value` the
accumulator, `bytesRead` the count so far.  The list argument is the
clamped scan window (at most 9 bytes), so the Go bound
`i < maxBytes && i < 9` is the list running out. -/
def varintLoop : List Nat → Nat → Nat → Nat → Nat × Nat
  | [], _, value, bytesRead => (value, bytesRead)
  | b :: rest, i, value, bytesRead =>
    if i < 8 then
      let value := value * 128 + b % 256 % 128
      if b % 256 < 128 then (value, bytesRead + 1)
      else varintLoop rest (i + 1) value (bytesRead + 1)
    else (value * 256 + b % 256, bytesRead + 1)

/-- Function `readVarint` from the source.  Returns the accumulated 64-bit pattern
(as a `Nat`; the Go result is that pattern viewed as `int64`) and the
number of bytes consumed. -/
def readVarint (data : List Nat) (index : Nat) : Nat × Nat :=
  if data.length ≤ index then (0, 0)
  else varintLoop ((data.drop index).take 9) 0 0 0

/-- Function `getSerialTypeSize` from the source. -/
def getSerialTypeSize (serialType : Int) : Nat :=
  if serialType = 0 ∨ serialType = 8 ∨ serialType = 9 then 0
  else if serialType = 1 then 1
  else if serialType = 2 then 2
  else if serialType = 3 then 3
  else if serialType = 4 then 4
  else if serialType = 5 then 6
  else if serialType = 6 ∨ serialType = 7 then 8
  else if 12 ≤ serialType ∧ serialType % 2 = 0 then ((serialType - 12) / 2).toNat
  else if 13 ≤ serialType ∧ serialType % 2 = 1 then ((serialType - 13) / 2).toNat
  else 0

/-- Left-pad a digit string with zeros to width `n`. -/
def padZeros (s : String) (n : Nat) : String :=
  String.mk (List.replicate (n - s.length) '0') ++ s

/-- Decimal rendering of an IEEE-754 binary64 bit pattern with 6 fractional
digits, as `fmt.Sprintf` with the `f` verb produces for a `float64`:
the exact binary value is rounded to 6 decimals, ties to even. -/
def formatFloat64 (bits : Nat) : String :=
  let sign : Nat := bits / 2 ^ 63 % 2
  let e : Nat := bits / 2 ^ 52 % 2 ^ 11
  let m : Nat := bits % 2 ^ 52
  if e = 2047 then
    if m = 0 then (if sign = 1 then "-Inf" else "+Inf") else "NaN"
  else
    let M : Nat := if e = 0 then m else 2 ^ 52 + m
    let p : Int := if e = 0 then -1074 else (e : Int) - 1075
    let q : Nat :=
      if 0 ≤ p + 6 then M * 5 ^ 6 * 2 ^ (p + 6).toNat
      else
        let shift := (-(p + 6)).toNat
        let N := M * 5 ^ 6
        let q0 := N / 2 ^ shift
        let r := N % 2 ^ shift
        let half := 2 ^ (shift - 1)
        if half < r then q0 + 1
        else if r < half then q0
        else if q0 % 2 = 1 then q0 + 1 else q0
    (if sign = 1 then "-" else "") ++ toString (q / 10 ^ 6) ++ "." ++
      padZeros (toString (q % 10 ^ 6)) 6

/-- Raw bytes viewed as a string (Go `string(value[:n])`; content here is
ASCII, each byte becomes the code point of the same value). -/
def bytesToString (bytes : List Nat) : String :=
  String.mk (bytes.map (fun b => Char.ofNat (b % 256)))

/-- Function `processSerialType` from the source.  Note the serial-type-3 and -5
integer cases: the source pads the 3 (resp. 6) value bytes with leading
zero bytes on the left, converts, and then arithmetic-shifts right by 8
(resp. 16) bits, exactly as written there. -/
def processSerialType (serialType : Int) (value : List Nat) : String :=
  if serialType = 0 then "NULL"
  else if serialType = 1 then toString (toSigned 8 (value.getD 0 0))
  else if serialType = 2 then toString (toSigned 16 (beUint value 2))
  else if serialType = 3 then
    toString (sar (toSigned 32 (beUint (0 :: value.take 3) 4)) 8)
  else if serialType = 4 then toString (toSigned 32 (beUint value 4))
  else if serialType = 5 then
    toString (sar (toSigned 64 (beUint (0 :: 0 :: value.take 6) 8)) 16)
  else if serialType = 6 then toString (toSigned 64 (beUint value 8))
  else if serialType = 7 then formatFloat64 (beUint value 8)
  else if serialType = 8 then "0"
  else if serialType = 9 then "1"
  else if serialType = 10 ∨ serialType = 11 then
    "Reserved(" ++ toString serialType ++ ")"
  else if 12 ≤ serialType ∧ serialType % 2 = 0 then
    let blobLen := ((serialType - 12) / 2).toNat
    if blobLen ≤ value.length then "BLOB(" ++ toString blobLen ++ " bytes)"
    else "Invalid BLOB"
  else if 13 ≤ serialType ∧ serialType % 2 = 1 then
    let strLen := ((serialType - 13) / 2).toNat
    if strLen ≤ value.length then bytesToString (value.take strLen)
    else "Invalid String"
  else "Unknown Type"

/-- Byte offset of a page's B-tree header: `(pageNumber-1)*pageSize` in
`int32` arithmetic, plus the 100-byte file header on page 1. -/
def pageOffsetOf (pageNumber pageSize : Int) : Int :=
  let po := wrap32 ((pageNumber - 1) * pageSize)
  if pageNumber = 1 then po + 100 else po

/-- Function `getCellCount` from the source (2-byte big-endian count at page
offset 3; 0 on read error). -/
def getCellCount (file : List Nat) (pageOffset : Int) : Nat :=
  match readBytesAtOffset file (pageOffset + 3) 2 with
  | none => 0
  | some d => beUint d 2

/-- Function `getRightmostChildPageNumber` from the source (4-byte big-endian at
page offset 8; 0 on read error). -/
def getRightmostChildPageNumber (file : List Nat) (pageOffset : Int) : Int :=
  match readBytesAtOffset file (pageOffset + 8) 4 with
  | none => 0
  | some d => wrap32 (beUint d 4)

/-- Function `getCellContentOffset` from the source (2-byte big-endian cell pointer;
0 on read error). -/
def getCellContentOffset (file : List Nat) (cellPointerOffset : Int) : Int :=
  match readBytesAtOffset file cellPointerOffset 2 with
  | none => 0
  | some d => beUint d 2

/-- Serial-type parsing loop of `processLeafCellRecord`: repeatedly read a
varint while `int32(headerOffset) < int32(headerSize)`.  If a varint read
consumes 0 bytes the Go loop never terminates (appending zeros forever);
the `fuel` parameter (chosen larger than any terminating iteration count)
cuts that unreachable divergence off. -/
def parseSerialTypesLoop (data : List Nat) (headerSize32 : Int) :
    Nat → Int → List Int → List Int
  | 0, _, acc => acc
  | fuel + 1, headerOffset, acc =>
    if headerOffset < headerSize32 then
      let vi := readVarint data headerOffset.toNat
      parseSerialTypesLoop data headerSize32 fuel (wrap32 (headerOffset + vi.2))
        (acc ++ [toInt64 vi.1])
    else acc

/-- Function `processLeafCellRecord` from the source: record-size varint, row-id
varint, the record bytes, and the parsed header.  Read errors yield the
Go zero values `(nil, nil, 0, 0)`; a negative record size would make Go
panic in `make`, hence `none`. -/
def processLeafCellRecord (file : List Nat) (cellContentOffset : Int) :
    Option (List Nat × List Int × Int × Int) :=
  match readBytesAtOffset file cellContentOffset 9 with
  | none => some ([], [], 0, 0)
  | some d1 =>
    let v1 := readVarint d1 0
    let recordSize := toInt64 v1.1
    match readBytesAtOffset file (cellContentOffset + v1.2) 9 with
    | none => some ([], [], 0, 0)
    | some d2 =>
      let v2 := readVarint d2 0
      let rowId := toInt64 v2.1
      let recordOffset := cellContentOffset + v1.2 + v2.2
      if recordSize < 0 then none
      else
        match readBytesAtOffset file recordOffset recordSize.toNat with
        | none => some ([], [], 0, 0)
        | some data =>
          let v3 := readVarint data 0
          let headerSize := toInt64 v3.1
          let hs32 := wrap32 headerSize
          some (data,
            parseSerialTypesLoop data hs32 (hs32.toNat + 1) (v3.2 : Int) [],
            headerSize, rowId)

/-- Structure `WhereCondition` from the source; `colIdx = -1` marks "no condition". -/
structure WhereCondition where
  colIdx : Int
  value : String
deriving DecidableEq

/-- Column-decoding loop of `getColumnDataHelper` (lines 407-418): decode
each column, collect its text, and abandon the row (`met = false`) as soon
as the WHERE column decodes to text different from the literal.  `none`
is the Go out-of-range slice panic. -/
def decodeColsLoop (data : List Nat) (wc : WhereCondition) :
    List Int → Nat → Int → List String → Option (List String × Bool)
  | [], _, _, rowValues => some (rowValues, true)
  | st :: rest, i, bodyOffset, rowValues =>
    let size := getSerialTypeSize st
    match goSlice data bodyOffset (bodyOffset + size) with
    | none => none
    | some value =>
      let strValue := processSerialType st value
      let rowValues := rowValues ++ [strValue]
      if wc.colIdx ≠ -1 ∧ (i : Int) = wc.colIdx ∧ strValue ≠ wc.value then
        some (rowValues, false)
      else decodeColsLoop data wc rest (i + 1) (bodyOffset + size) rowValues

/-- Projection loop of `getColumnDataHelper` (lines 421-428): the bound
check admits `idx = len(rowValues)`, in which case `rowValues[idx]`
panics (`none`); out-of-bound indices beyond that are skipped without a
placeholder, and the separator depends on the position in `colIdx`. -/
def projectLoop (rowValues : List String) : List Int → Nat → String → Option String
  | [], _, acc => some acc
  | idx :: rest, j, acc =>
    if 0 ≤ idx ∧ idx ≤ (rowValues.length : Int) then
      let acc := if 0 < j then acc ++ "|" else acc
      match rowValues.get? idx.toNat with
      | none => none
      | some v => projectLoop rowValues rest (j + 1) (acc ++ v)
    else projectLoop rowValues rest (j + 1) acc

/-- One leaf cell of `getColumnDataHelper` (lines 397-433): locate the
cell, decode the row (WHERE short-circuit included), overwrite column 0
with the row id (a panic if the row decoded no columns), and produce
`some (some s)` for a row that passed the filter with projected string
`s`, `some none` for a filtered-out row, `none` for a panic. -/
def rowOutcome (file : List Nat) (pageNumber pageOffset : Int)
    (colIdx : List Int) (wc : WhereCondition) (i : Nat) : Option (Option String) :=
  let cellPointerOffset := wrap32 (pageOffset + 8 + 2 * i)
  let c0 := getCellContentOffset file cellPointerOffset
  let cellContentOffset := if pageNumber ≠ 1 then wrap32 (c0 + pageOffset) else c0
  match processLeafCellRecord file cellContentOffset with
  | none => none
  | some (data, serialTypes, bodyOffset, rowId) =>
    match decodeColsLoop data wc serialTypes 0 bodyOffset [] with
    | none => none
    | some (rowValues, met) =>
      match rowValues with
      | [] => none
      | _ :: rest =>
        if met then
          match projectLoop (toString rowId :: rest) colIdx 0 "" with
          | none => none
          | some s => some (some s)
        else some none

/-- Leaf-page cell loop of `getColumnDataHelper`: a passing row's
projected string is appended only when it is nonempty (line 430). -/
def goLeafFold (f : Nat → Option (Option String)) :
    List Nat → List String → Option (List String)
  | [], acc => some acc
  | i :: rest, acc =>
    match f i with
    | none => none
    | some none => goLeafFold f rest acc
    | some (some s) => goLeafFold f rest (if s = "" then acc else acc ++ [s])

/-- Refinement companion of `goLeafFold` following the specification: every
row that passes the WHERE filter contributes its projected string, the
empty ones included. -/
def specLeafFold (f : Nat → Option (Option String)) :
    List Nat → List String → Option (List String)
  | [], acc => some acc
  | i :: rest, acc =>
    match f i with
    | none => none
    | some none => specLeafFold f rest acc
    | some (some s) => specLeafFold f rest (acc ++ [s])

/-- Interior-page cell loop shared by the traversals that produce string
lists: read each cell's 4-byte child page number (skipping cells whose
read fails) and concatenate the recursive results. -/
def interiorFold (g : Int → Option (List String)) (file : List Nat)
    (pageNumber pageOffset : Int) : List Nat → List String → Option (List String)
  | [], acc => some acc
  | i :: rest, acc =>
    let cellPointerOffset := wrap32 (pageOffset + 12 + 2 * i)
    let c0 := getCellContentOffset file cellPointerOffset
    let cellContentOffset := if pageNumber ≠ 1 then wrap32 (c0 + pageOffset) else c0
    match readBytesAtOffset file cellContentOffset 4 with
    | none => interiorFold g file pageNumber pageOffset rest acc
    | some d =>
      match g (wrap32 (beUint d 4)) with
      | none => none
      | some xs => interiorFold g file pageNumber pageOffset rest (acc ++ xs)

/-- Function `getColumnDataHelper` from the source. -/
def getColumnDataHelper (file : List Nat) :
    Nat → Int → Int → List Int → WhereCondition → Option (List String)
  | 0, _, _, _, _ => some []
  | fuel + 1, pageNumber, pageSize, colIdx, wc =>
    let pageOffset := pageOffsetOf pageNumber pageSize
    match readBytesAtOffset file pageOffset 1 with
    | none => some []
    | some d =>
      let t := d.headD 0
      if t = 13 then
        goLeafFold (rowOutcome file pageNumber pageOffset colIdx wc)
          (List.range (getCellCount file pageOffset)) []
      else if t = 5 then
        match interiorFold (fun c => getColumnDataHelper file fuel c pageSize colIdx wc)
            file pageNumber pageOffset (List.range (getCellCount file pageOffset)) [] with
        | none => none
        | some acc =>
          match getColumnDataHelper file fuel
              (getRightmostChildPageNumber file pageOffset) pageSize colIdx wc with
          | none => none
          | some xs => some (acc ++ xs)
      else some []

/-- Refinement companion of `getColumnDataHelper`: identical traversal,
but leaf pages collect the projected string of every row that passed the
WHERE filter, empty strings included. -/
def specColumnData (file : List Nat) :
    Nat → Int → Int → List Int → WhereCondition → Option (List String)
  | 0, _, _, _, _ => some []
  | fuel + 1, pageNumber, pageSize, colIdx, wc =>
    let pageOffset := pageOffsetOf pageNumber pageSize
    match readBytesAtOffset file pageOffset 1 with
    | none => some []
    | some d =>
      let t := d.headD 0
      if t = 13 then
        specLeafFold (rowOutcome file pageNumber pageOffset colIdx wc)
          (List.range (getCellCount file pageOffset)) []
      else if t = 5 then
        match interiorFold (fun c => specColumnData file fuel c pageSize colIdx wc)
            file pageNumber pageOffset (List.range (getCellCount file pageOffset)) [] with
        | none => none
        | some acc =>
          match specColumnData file fuel
              (getRightmostChildPageNumber file pageOffset) pageSize colIdx wc with
          | none => none
          | some xs => some (acc ++ xs)
      else some []

/-- Interior-page cell loop of `countRecordsInBTree`: accumulate the
recursive counts (a failed 4-byte read contributes nothing). -/
def countInteriorFold (g : Int → Int) (file : List Nat)
    (pageNumber pageOffset : Int) : List Nat → Int → Int
  | [], acc => acc
  | i :: rest, acc =>
    let cellPointerOffset := wrap32 (pageOffset + 12 + 2 * i)
    let c0 := getCellContentOffset file cellPointerOffset
    let cellContentOffset := if pageNumber ≠ 1 then wrap32 (c0 + pageOffset) else c0
    match readBytesAtOffset file cellContentOffset 4 with
    | none => countInteriorFold g file pageNumber pageOffset rest acc
    | some d => countInteriorFold g file pageNumber pageOffset rest
        (acc + g (wrap32 (beUint d 4)))

/-- Function `countRecordsInBTree` from the source: a leaf contributes its 2-byte
cell count, an interior page the sum over its children plus the rightmost
child, anything else zero. -/
def countRecordsInBTree (file : List Nat) : Nat → Int → Int → Int
  | 0, _, _ => 0
  | fuel + 1, pageNumber, pageSize =>
    let pageOffset := pageOffsetOf pageNumber pageSize
    match readBytesAtOffset file pageOffset 1 with
    | none => 0
    | some d =>
      let t := d.headD 0
      if t = 13 then (getCellCount file pageOffset : Int)
      else if t = 5 then
        countInteriorFold (fun c => countRecordsInBTree file fuel c pageSize)
          file pageNumber pageOffset (List.range (getCellCount file pageOffset)) 0
          + countRecordsInBTree file fuel
              (getRightmostChildPageNumber file pageOffset) pageSize
      else 0

/-- Interior-page loop companion for `specLeafCellCounts`: concatenate
each reachable child's leaf-cell-count list. -/
def leavesInteriorFold (g : Int → List Nat) (file : List Nat)
    (pageNumber pageOffset : Int) : List Nat → List Nat → List Nat
  | [], acc => acc
  | i :: rest, acc =>
    let cellPointerOffset := wrap32 (pageOffset + 12 + 2 * i)
    let c0 := getCellContentOffset file cellPointerOffset
    let cellContentOffset := if pageNumber ≠ 1 then wrap32 (c0 + pageOffset) else c0
    match readBytesAtOffset file cellContentOffset 4 with
    | none => leavesInteriorFold g file pageNumber pageOffset rest acc
    | some d => leavesInteriorFold g file pageNumber pageOffset rest
        (acc ++ g (wrap32 (beUint d 4)))

/-- Specification-side view of the tree walk: the list of 2-byte cell
counts of all leaf (0x0D) pages reachable from the given root, in
traversal order; interior (0x05) pages contribute no entry of their own
and unrecognized pages none at all. -/
def specLeafCellCounts (file : List Nat) : Nat → Int → Int → List Nat
  | 0, _, _ => []
  | fuel + 1, pageNumber, pageSize =>
    let pageOffset := pageOffsetOf pageNumber pageSize
    match readBytesAtOffset file pageOffset 1 with
    | none => []
    | some d =>
      let t := d.headD 0
      if t = 13 then [getCellCount file pageOffset]
      else if t = 5 then
        leavesInteriorFold (fun c => specLeafCellCounts file fuel c pageSize)
          file pageNumber pageOffset (List.range (getCellCount file pageOffset)) []
          ++ specLeafCellCounts file fuel
              (getRightmostChildPageNumber file pageOffset) pageSize
      else []

/-- Go `unicode.IsSpace` restricted to the ASCII range (the inputs here
are ASCII statement and query text). -/
def goIsSpace (c : Char) : Bool :=
  c = ' ' ∨ c = Char.ofNat 9 ∨ c = Char.ofNat 10 ∨ c = Char.ofNat 11 ∨
    c = Char.ofNat 12 ∨ c = Char.ofNat 13

/-- Worker for `goFields`. -/
def fieldsAux : List Char → List Char → List String
  | [], cur => if cur.isEmpty then [] else [String.mk cur.reverse]
  | c :: rest, cur =>
    if goIsSpace c then
      if cur.isEmpty then fieldsAux rest []
      else String.mk cur.reverse :: fieldsAux rest []
    else fieldsAux rest (c :: cur)

/-- Go `strings.Fields`: split around runs of whitespace. -/
def goFields (s : String) : List String := fieldsAux s.toList []

/-- Go `strings.TrimSpace`. -/
def goTrimSpace (s : String) : String :=
  String.mk (((s.toList.dropWhile goIsSpace).reverse.dropWhile goIsSpace).reverse)

/-- Go `strings.Trim(s, "...")` with the single-quote cutset used by the
WHERE-literal unpacking. -/
def goTrimQuotes (s : String) : String :=
  let isQ : Char → Bool := fun c => c = Char.ofNat 39
  String.mk (((s.toList.dropWhile isQ).reverse.dropWhile isQ).reverse)

/-- Worker for `goSplitComma`. -/
def splitCommaAux : List Char → List Char → List String
  | [], cur => [String.mk cur.reverse]
  | c :: rest, cur =>
    if c = ',' then String.mk cur.reverse :: splitCommaAux rest []
    else splitCommaAux rest (c :: cur)

/-- Go `strings.Split(s, ",")` (returns `[""]` on the empty string). -/
def goSplitComma (s : String) : List String := splitCommaAux s.toList []

/-- Go `strings.Index(s, sub)` for the single-character needles `(` and
`)` used by the schema parser. -/
def stringsIndexChar (s : String) (c : Char) : Int :=
  match s.toList.findIdx? (· == c) with
  | some i => (i : Int)
  | none => -1

/-- Go `strings.LastIndex(s, sub)` for a single-character needle. -/
def stringsLastIndexChar (s : String) (c : Char) : Int :=
  match s.toList.reverse.findIdx? (· == c) with
  | some i => (s.length : Int) - 1 - i
  | none => -1

/-- Go string slice expression `s[lo:hi]` (byte-indexed in Go; the strings
sliced here are ASCII, so character indexing coincides): panics (`none`)
unless `0 <= lo <= hi <= len(s)`. -/
def goStrSlice (s : String) (lo hi : Int) : Option String :=
  if 0 ≤ lo ∧ lo ≤ hi ∧ hi ≤ (s.length : Int) then
    some (String.mk ((s.toList.drop lo.toNat).take (hi - lo).toNat))
  else none

/-- Go `strconv.Atoi` as used by the source (the error result is always
discarded): an optional sign followed by one or more digits parses to the
64-bit-clamped value, everything else to 0. -/
def goAtoi (s : String) : Int :=
  let cs := s.toList
  let neg := cs.headD ' ' = '-'
  let ds := if cs.headD ' ' = '-' ∨ cs.headD ' ' = '+' then cs.tail else cs
  if ds ≠ [] ∧ ds.all Char.isDigit then
    let v : Int := (ds.foldl (fun a c => a * 10 + (c.toNat - 48)) 0 : Nat)
    let v := if neg then -v else v
    if v < -(2 ^ 63) then -(2 ^ 63)
    else if (2 ^ 63 - 1 : Int) < v then 2 ^ 63 - 1
    else v
  else 0

/-- Column loop of `getCountInATable`'s leaf case (lines 324-345): text
column 2 equal to the table name sets the found flag; when column 3 is
reached with the flag set the function immediately returns the record
count of the B-tree rooted at that column's value parsed as an integer.
`Sum.inl` carries the flag out of a row that did not trigger the return,
`Sum.inr` the early-returned count, `none` a slice panic. -/
def countColsLoop (file : List Nat) (pageSize : Int) (tableName : String)
    (cFuel : Nat) (data : List Nat) :
    List Int → Nat → Int → Bool → Option (Bool ⊕ Int)
  | [], _, _, found => some (Sum.inl found)
  | st :: rest, ci, bodyOffset, found =>
    let size := getSerialTypeSize st
    match goSlice data bodyOffset (bodyOffset + size) with
    | none => none
    | some value =>
      let strValue := processSerialType st value
      let found :=
        if ci = 2 ∧ 13 ≤ st ∧ st % 2 = 1 ∧ strValue = tableName then true else found
      if ci = 3 ∧ found = true then
        some (Sum.inr (countRecordsInBTree file cFuel (wrap32 (goAtoi strValue)) pageSize))
      else countColsLoop file pageSize tableName cFuel data rest (ci + 1)
          (bodyOffset + size) found

/-- Leaf-page cell loop of `getCountInATable`: the found flag is declared
outside the loop and so persists from one cell to the next. -/
def countLeafCells (file : List Nat) (pageNumber pageOffset pageSize : Int)
    (tableName : String) (cFuel : Nat) : List Nat → Bool → Option Int
  | [], _ => some 0
  | i :: rest, found =>
    let cellPointerOffset := wrap32 (pageOffset + 8 + 2 * i)
    let c0 := getCellContentOffset file cellPointerOffset
    let cellContentOffset := if pageNumber ≠ 1 then wrap32 (c0 + pageOffset) else c0
    match processLeafCellRecord file cellContentOffset with
    | none => none
    | some (data, serialTypes, bodyOffset, _) =>
      match countColsLoop file pageSize tableName cFuel data serialTypes 0
          bodyOffset found with
      | none => none
      | some (Sum.inr c) => some c
      | some (Sum.inl found2) =>
        countLeafCells file pageNumber pageOffset pageSize tableName cFuel rest found2

/-- Interior-page cell loop of `getCountInATable`: sum the recursive
counts over readable child pointers. -/
def countInATableInterior (g : Int → Option Int) (file : List Nat)
    (pageNumber pageOffset : Int) : List Nat → Int → Option Int
  | [], acc => some acc
  | i :: rest, acc =>
    let cellPointerOffset := wrap32 (pageOffset + 12 + 2 * i)
    let c0 := getCellContentOffset file cellPointerOffset
    let cellContentOffset := if pageNumber ≠ 1 then wrap32 (c0 + pageOffset) else c0
    match readBytesAtOffset file cellContentOffset 4 with
    | none => countInATableInterior g file pageNumber pageOffset rest acc
    | some d =>
      match g (wrap32 (beUint d 4)) with
      | none => none
      | some c => countInATableInterior g file pageNumber pageOffset rest (acc + c)

/-- Function `getCountInATable` from the source.  Note that its schema scan
accepts any leaf row whose TEXT column 2 equals the table name: it never
inspects column 0 (the entry type) nor requires five columns. -/
def getCountInATable (file : List Nat) : Nat → Int → Int → String → Option Int
  | 0, _, _, _ => some 0
  | fuel + 1, pageNumber, pageSize, tableName =>
    let pageOffset := pageOffsetOf pageNumber pageSize
    match readBytesAtOffset file pageOffset 1 with
    | none => some 0
    | some d =>
      let t := d.headD 0
      if t = 13 then
        countLeafCells file pageNumber pageOffset pageSize tableName fuel
          (List.range (getCellCount file pageOffset)) false
      else if t = 5 then
        match countInATableInterior (fun c => getCountInATable file fuel c pageSize tableName)
            file pageNumber pageOffset (List.range (getCellCount file pageOffset)) 0 with
        | none => none
        | some acc =>
          match getCountInATable file fuel
              (getRightmostChildPageNumber file pageOffset) pageSize tableName with
          | none => none
          | some c => some (acc + c)
      else some 0

/-- Column loop of `getTablesNamesInBTree`'s leaf case: collect the value
of text column 2 of every row. -/
def tablesColsLoop (data : List Nat) :
    List Int → Nat → Int → List String → Option (List String)
  | [], _, _, acc => some acc
  | st :: rest, ci, bodyOffset, acc =>
    let size := getSerialTypeSize st
    match goSlice data bodyOffset (bodyOffset + size) with
    | none => none
    | some value =>
      let strValue := processSerialType st value
      let acc := if ci = 2 ∧ 13 ≤ st ∧ st % 2 = 1 then acc ++ [strValue] else acc
      tablesColsLoop data rest (ci + 1) (bodyOffset + size) acc

/-- Leaf-page cell loop of `getTablesNamesInBTree`. -/
def tablesLeafFold (file : List Nat) (pageNumber pageOffset : Int) :
    List Nat → List String → Option (List String)
  | [], acc => some acc
  | i :: rest, acc =>
    let cellPointerOffset := wrap32 (pageOffset + 8 + 2 * i)
    let c0 := getCellContentOffset file cellPointerOffset
    let cellContentOffset := if pageNumber ≠ 1 then wrap32 (c0 + pageOffset) else c0
    match processLeafCellRecord file cellContentOffset with
    | none => none
    | some (data, serialTypes, bodyOffset, _) =>
      match tablesColsLoop data serialTypes 0 bodyOffset acc with
      | none => none
      | some acc2 => tablesLeafFold file pageNumber pageOffset rest acc2

/-- Function `getTablesNamesInBTree` from the source. -/
def getTablesNamesInBTree (file : List Nat) : Nat → Int → Int → Option (List String)
  | 0, _, _ => some []
  | fuel + 1, pageNumber, pageSize =>
    let pageOffset := pageOffsetOf pageNumber pageSize
    match readBytesAtOffset file pageOffset 1 with
    | none => some []
    | some d =>
      let t := d.headD 0
      if t = 13 then
        tablesLeafFold file pageNumber pageOffset
          (List.range (getCellCount file pageOffset)) []
      else if t = 5 then
        match interiorFold (fun c => getTablesNamesInBTree file fuel c pageSize)
            file pageNumber pageOffset (List.range (getCellCount file pageOffset)) [] with
        | none => none
        | some acc =>
          match getTablesNamesInBTree file fuel
              (getRightmostChildPageNumber file pageOffset) pageSize with
          | none => none
          | some xs => some (acc ++ xs)
      else some []

/-- Column loop of `readDataFromMultipleColumns`'s schema scan: decode
every column of a record into its text form. -/
def decodeAllCols (data : List Nat) :
    List Int → Int → List String → Option (List String)
  | [], _, acc => some acc
  | st :: rest, bodyOffset, acc =>
    let size := getSerialTypeSize st
    match goSlice data bodyOffset (bodyOffset + size) with
    | none => none
    | some value =>
      decodeAllCols data rest (bodyOffset + size) (acc ++ [processSerialType st value])

/-- Schema-leaf cell loop of `readDataFromMultipleColumns` (lines
486-508): the first record with at least 5 columns whose column 0 is
`"table"` and whose column 2 is the requested name supplies the root page
(column 3 text parsed as an integer) and the creation statement
(column 4); the loop breaks there. -/
def schemaScan (file : List Nat) (pageNumber pageOffset : Int) (tableName : String) :
    List Nat → Option (Option (Int × String))
  | [] => some none
  | i :: rest =>
    let cellPointerOffset := wrap32 (pageOffset + 8 + 2 * i)
    let c0 := getCellContentOffset file cellPointerOffset
    let cellContentOffset := if pageNumber ≠ 1 then wrap32 (c0 + pageOffset) else c0
    match processLeafCellRecord file cellContentOffset with
    | none => none
    | some (data, serialTypes, bodyOffset, _) =>
      match decodeAllCols data serialTypes bodyOffset [] with
      | none => none
      | some rv =>
        if 5 ≤ rv.length ∧ rv.getD 0 "" = "table" ∧ rv.getD 2 "" = tableName then
          some (some (goAtoi (rv.getD 3 ""), rv.getD 4 ""))
        else schemaScan file pageNumber pageOffset tableName rest

/-- Inner loop of the requested-column resolution (lines 523-530): first
column definition whose first whitespace-delimited token equals the
requested name, if any.  A definition with no tokens is skipped (the
`len(words) > 0` guard). -/
def resolveInner : List String → String → Int → Option Int
  | [], _, _ => none
  | d :: rest, colName, idx =>
    match goFields (goTrimSpace d) with
    | [] => resolveInner rest colName (idx + 1)
    | w :: _ =>
      if w = colName then some idx else resolveInner rest colName (idx + 1)

/-- Requested-column resolution of `readDataFromMultipleColumns` (lines
521-531): for each requested name in order, append the index of the
first matching column definition; names with no match contribute
nothing. -/
def goResolveColIdxs (colNames columnDefs : List String) : List Int :=
  colNames.foldl
    (fun acc n =>
      match resolveInner columnDefs n 0 with
      | some i => acc ++ [i]
      | none => acc) []

/-- WHERE-column resolution loop (lines 532-539).  Unlike the
requested-column loop this one indexes `words[0]` without an emptiness
guard, so an all-whitespace column definition panics (`none`); `some
none` means the loop finished without a match and the sentinel condition
(index -1) stays in effect. -/
def resolveWhereLoop (whereCol whereValue : String) :
    List String → Int → Option (Option WhereCondition)
  | [], _ => some none
  | d :: rest, idx =>
    match goFields (goTrimSpace d) with
    | [] => none
    | w :: _ =>
      if w = whereCol then some (some ⟨idx, whereValue⟩)
      else resolveWhereLoop whereCol whereValue rest (idx + 1)

/-- Function `readDataFromMultipleColumns` from the source. -/
def readDataFromMultipleColumns (file : List Nat) :
    Nat → Int → Int → String → List String → List String → Option (List String)
  | 0, _, _, _, _, _ => some []
  | fuel + 1, pageNumber, pageSize, tableName, colNames, rawWhereConditions =>
    let pageOffset := pageOffsetOf pageNumber pageSize
    match readBytesAtOffset file pageOffset 1 with
    | none => some []
    | some d =>
      let t := d.headD 0
      if t = 13 then
        match schemaScan file pageNumber pageOffset tableName
            (List.range (getCellCount file pageOffset)) with
        | none => none
        | some res =>
          let rootPage := (res.map Prod.fst).getD 0
          let createStatement := (res.map Prod.snd).getD ""
          let unpack : Option (String × String) :=
            if rawWhereConditions = [] then some ("", "")
            else if 2 ≤ rawWhereConditions.length then
              some (rawWhereConditions.headD "",
                goTrimQuotes (String.intercalate " " (rawWhereConditions.drop 2)))
            else none
          match unpack with
          | none => none
          | some (whereCol, whereValue) =>
            let openParenIndex := stringsIndexChar createStatement '('
            let closeParenIndex := stringsLastIndexChar createStatement ')'
            match goStrSlice createStatement (openParenIndex + 1) closeParenIndex with
            | none => none
            | some columnsPart =>
              let columnDefs := goSplitComma columnsPart
              let colIdxs := goResolveColIdxs colNames columnDefs
              match resolveWhereLoop whereCol whereValue columnDefs 0 with
              | none => none
              | some owc =>
                getColumnDataHelper file fuel (wrap32 rootPage) pageSize colIdxs
                  (owc.getD ⟨-1, ""⟩)
      else if t = 5 then
        match interiorFold
            (fun c => readDataFromMultipleColumns file fuel c pageSize tableName
              colNames rawWhereConditions)
            file pageNumber pageOffset (List.range (getCellCount file pageOffset)) [] with
        | none => none
        | some acc =>
          match readDataFromMultipleColumns file fuel
              (getRightmostChildPageNumber file pageOffset) pageSize tableName
              colNames rawWhereConditions with
          | none => none
          | some xs => some (acc ++ xs)
      else some []

/-- Accumulate the low 7 bits of each byte, most-significant first. -/
def accum7 (bytes : List Nat) : Nat :=
  bytes.foldl (fun a b => a * 128 + b % 256 % 128) 0

/-- Specification-side varint decoder, transcribing section 4.1 of the
specification: clamp the scan window to at most 9 available bytes
(`(0,0)` when the start index is at or past the end); accumulate the low
7 bits of each of the first 8 window bytes most-significant-first,
stopping at the first byte with a clear high bit (1-8 bytes consumed);
if all first 8 bytes have the high bit set, a 9th byte (when present) is
taken whole and terminates the varint. -/
def specVarint (data : List Nat) (index : Nat) : Nat × Nat :=
  if data.length ≤ index then (0, 0)
  else
    let window := (data.drop index).take 9
    let first8 := window.take 8
    match first8.findIdx? (fun b => b % 256 < 128) with
    | some j => (accum7 (first8.take (j + 1)), j + 1)
    | none =>
      match window.get? 8 with
      | some b9 => (accum7 first8 * 256 + b9 % 256, 9)
      | none => (accum7 first8, window.length)

/-- Concrete 512-byte database, page size 256: page 1 is a schema leaf with the single row (table, widgets, widgets, 2, CREATE TABLE widgets (id integer primary key, name text, weight real)); page 2 is the widgets table leaf holding rows rowid 1 = (NULL, apple, 1.5) and rowid 2 = (NULL, banana, 2.0), the id column stored as serial type 0 per the integer-primary-key row-id rule. -/
def fileC1 : List Nat :=
  [
  0, 0, 0, 0, 0, 0, 0, 0, 0, 0, 0, 0, 0, 0, 0, 0, 1, 0, 0, 0, 0, 0, 0, 0, 0,
  0, 0, 0, 0, 0, 0, 0, 0, 0, 0, 0, 0, 0, 0, 0, 0, 0, 0, 0, 0, 0, 0, 0, 0, 0,
  0, 0, 0, 0, 0, 0, 0, 0, 0, 0, 0, 0, 0, 0, 0, 0, 0, 0, 0, 0, 0, 0, 0, 0, 0,
  0, 0, 0, 0, 0, 0, 0, 0, 0, 0, 0, 0, 0, 0, 0, 0, 0, 0, 0, 0, 0, 0, 0, 0, 0,
  13, 0, 0, 0, 1, 0, 0, 0, 0, 150, 0, 0, 0, 0, 0, 0, 0, 0, 0, 0, 0, 0, 0, 0,
  0, 0, 0, 0, 0, 0, 0, 0, 0, 0, 0, 0, 0, 0, 0, 0, 0, 0, 0, 0, 0, 0, 0, 0, 0,
  0, 96, 1, 7, 23, 27, 27, 1, 129, 23, 116, 97, 98, 108, 101, 119, 105, 100,
  103, 101, 116, 115, 119, 105, 100, 103, 101, 116, 115, 2, 67, 82, 69, 65,
  84, 69, 32, 84, 65, 66, 76, 69, 32, 119, 105, 100, 103, 101, 116, 115, 32,
  40, 105, 100, 32, 105, 110, 116, 101, 103, 101, 114, 32, 112, 114, 105, 109,
  97, 114, 121, 32, 107, 101, 121, 44, 32, 110, 97, 109, 101, 32, 116, 101,
  120, 116, 44, 32, 119, 101, 105, 103, 104, 116, 32, 114, 101, 97, 108, 41,
  0, 0, 0, 0, 0, 0, 0, 0, 13, 0, 0, 0, 2, 0, 0, 0, 0, 100, 0, 150, 0, 0, 0, 0,
  0, 0, 0, 0, 0, 0, 0, 0, 0, 0, 0, 0, 0, 0, 0, 0, 0, 0, 0, 0, 0, 0, 0, 0, 0,
  0, 0, 0, 0, 0, 0, 0, 0, 0, 0, 0, 0, 0, 0, 0, 0, 0, 0, 0, 0, 0, 0, 0, 0, 0,
  0, 0, 0, 0, 0, 0, 0, 0, 0, 0, 0, 0, 0, 0, 0, 0, 0, 0, 0, 0, 0, 0, 0, 0, 0,
  0, 0, 0, 0, 0, 0, 0, 0, 0, 17, 1, 4, 0, 23, 7, 97, 112, 112, 108, 101, 63,
  248, 0, 0, 0, 0, 0, 0, 0, 0, 0, 0, 0, 0, 0, 0, 0, 0, 0, 0, 0, 0, 0, 0, 0, 0,
  0, 0, 0, 0, 0, 0, 0, 0, 0, 0, 0, 0, 0, 18, 2, 4, 0, 25, 7, 98, 97, 110, 97,
  110, 97, 64, 0, 0, 0, 0, 0, 0, 0, 0, 0, 0, 0, 0, 0, 0, 0, 0, 0, 0, 0, 0, 0,
  0, 0, 0, 0, 0, 0, 0, 0, 0, 0, 0, 0, 0, 0, 0, 0, 0, 0, 0, 0, 0, 0, 0, 0, 0,
  0, 0, 0, 0, 0, 0, 0, 0, 0, 0, 0, 0, 0, 0, 0, 0, 0, 0, 0, 0, 0, 0, 0, 0, 0,
  0, 0, 0, 0, 0, 0, 0, 0, 0, 0, 0, 0, 0, 0, 0, 0, 0, 0, 0, 0, 0, 0]

/-- Concrete 768-byte database, page size 256: the schema leaf holds first an index row (index, widx, widgets, 3, x) and then the widgets table row (table, widgets, widgets, 2, ...); page 2 is the widgets leaf with 2 rows, page 3 a leaf with 1 cell (the index B-tree). -/
def fileC6 : List Nat :=
  [
  0, 0, 0, 0, 0, 0, 0, 0, 0, 0, 0, 0, 0, 0, 0, 0, 1, 0, 0, 0, 0, 0, 0, 0, 0,
  0, 0, 0, 0, 0, 0, 0, 0, 0, 0, 0, 0, 0, 0, 0, 0, 0, 0, 0, 0, 0, 0, 0, 0, 0,
  0, 0, 0, 0, 0, 0, 0, 0, 0, 0, 0, 0, 0, 0, 0, 0, 0, 0, 0, 0, 0, 0, 0, 0, 0,
  0, 0, 0, 0, 0, 0, 0, 0, 0, 0, 0, 0, 0, 0, 0, 0, 0, 0, 0, 0, 0, 0, 0, 0, 0,
  13, 0, 0, 0, 2, 0, 0, 0, 0, 120, 0, 146, 0, 0, 0, 0, 0, 0, 0, 0, 24, 1, 6,
  23, 21, 27, 1, 15, 105, 110, 100, 101, 120, 119, 105, 100, 120, 119, 105,
  100, 103, 101, 116, 115, 3, 120, 96, 2, 7, 23, 27, 27, 1, 129, 23, 116, 97,
  98, 108, 101, 119, 105, 100, 103, 101, 116, 115, 119, 105, 100, 103, 101,
  116, 115, 2, 67, 82, 69, 65, 84, 69, 32, 84, 65, 66, 76, 69, 32, 119, 105,
  100, 103, 101, 116, 115, 32, 40, 105, 100, 32, 105, 110, 116, 101, 103, 101,
  114, 32, 112, 114, 105, 109, 97, 114, 121, 32, 107, 101, 121, 44, 32, 110,
  97, 109, 101, 32, 116, 101, 120, 116, 44, 32, 119, 101, 105, 103, 104, 116,
  32, 114, 101, 97, 108, 41, 0, 0, 0, 0, 0, 0, 0, 0, 0, 0, 0, 0, 13, 0, 0, 0,
  2, 0, 0, 0, 0, 100, 0, 150, 0, 0, 0, 0, 0, 0, 0, 0, 0, 0, 0, 0, 0, 0, 0, 0,
  0, 0, 0, 0, 0, 0, 0, 0, 0, 0, 0, 0, 0, 0, 0, 0, 0, 0, 0, 0, 0, 0, 0, 0, 0,
  0, 0, 0, 0, 0, 0, 0, 0, 0, 0, 0, 0, 0, 0, 0, 0, 0, 0, 0, 0, 0, 0, 0, 0, 0,
  0, 0, 0, 0, 0, 0, 0, 0, 0, 0, 0, 0, 0, 0, 0, 0, 0, 0, 0, 0, 0, 0, 17, 1, 4,
  0, 23, 7, 97, 112, 112, 108, 101, 63, 248, 0, 0, 0, 0, 0, 0, 0, 0, 0, 0, 0,
  0, 0, 0, 0, 0, 0, 0, 0, 0, 0, 0, 0, 0, 0, 0, 0, 0, 0, 0, 0, 0, 0, 0, 0, 0,
  0, 18, 2, 4, 0, 25, 7, 98, 97, 110, 97, 110, 97, 64, 0, 0, 0, 0, 0, 0, 0, 0,
  0, 0, 0, 0, 0, 0, 0, 0, 0, 0, 0, 0, 0, 0, 0, 0, 0, 0, 0, 0, 0, 0, 0, 0, 0,
  0, 0, 0, 0, 0, 0, 0, 0, 0, 0, 0, 0, 0, 0, 0, 0, 0, 0, 0, 0, 0, 0, 0, 0, 0,
  0, 0, 0, 0, 0, 0, 0, 0, 0, 0, 0, 0, 0, 0, 0, 0, 0, 0, 0, 0, 0, 0, 0, 0, 0,
  0, 0, 0, 0, 0, 0, 0, 0, 0, 0, 13, 0, 0, 0, 1, 0, 0, 0, 0, 0, 0, 0, 0, 0, 0,
  0, 0, 0, 0, 0, 0, 0, 0, 0, 0, 0, 0, 0, 0, 0, 0, 0, 0, 0, 0, 0, 0, 0, 0, 0,
  0, 0, 0, 0, 0, 0, 0, 0, 0, 0, 0, 0, 0, 0, 0, 0, 0, 0, 0, 0, 0, 0, 0, 0, 0,
  0, 0, 0, 0, 0, 0, 0, 0, 0, 0, 0, 0, 0, 0, 0, 0, 0, 0, 0, 0, 0, 0, 0, 0, 0,
  0, 0, 0, 0, 0, 0, 0, 0, 0, 0, 0, 0, 0, 0, 0, 0, 0, 0, 0, 0, 0, 0, 0, 0, 0,
  0, 0, 0, 0, 0, 0, 0, 0, 0, 0, 0, 0, 0, 0, 0, 0, 0, 0, 0, 0, 0, 0, 0, 0, 0,
  0, 0, 0, 0, 0, 0, 0, 0, 0, 0, 0, 0, 0, 0, 0, 0, 0, 0, 0, 0, 0, 0, 0, 0, 0,
  0, 0, 0, 0, 0, 0, 0, 0, 0, 0, 0, 0, 0, 0, 0, 0, 0, 0, 0, 0, 0, 0, 0, 0, 0,
  0, 0, 0, 0, 0, 0, 0, 0, 0, 0, 0, 0, 0, 0, 0, 0, 0, 0, 0, 0, 0, 0, 0, 0, 0,
  0, 0, 0, 0, 0, 0, 0, 0, 0, 0, 0, 0, 0, 0, 0, 0, 0, 0, 0, 0, 0, 0, 0, 0, 0,
  0, 0, 0, 0, 0, 0, 0, 0, 0, 0, 0, 0, 0, 0, 0, 0]

/-- Concrete 512-byte database, page size 256: schema row (table, bad, bad, 2, CREATE TABLE bad (id integer primary key, name text)); page 2 holds one record whose header declares text serial type 37 (length 12) but whose body has only 2 bytes. -/
def fileC3 : List Nat :=
  [
  0, 0, 0, 0, 0, 0, 0, 0, 0, 0, 0, 0, 0, 0, 0, 0, 1, 0, 0, 0, 0, 0, 0, 0, 0,
  0, 0, 0, 0, 0, 0, 0, 0, 0, 0, 0, 0, 0, 0, 0, 0, 0, 0, 0, 0, 0, 0, 0, 0, 0,
  0, 0, 0, 0, 0, 0, 0, 0, 0, 0, 0, 0, 0, 0, 0, 0, 0, 0, 0, 0, 0, 0, 0, 0, 0,
  0, 0, 0, 0, 0, 0, 0, 0, 0, 0, 0, 0, 0, 0, 0, 0, 0, 0, 0, 0, 0, 0, 0, 0, 0,
  13, 0, 0, 0, 1, 0, 0, 0, 0, 150, 0, 0, 0, 0, 0, 0, 0, 0, 0, 0, 0, 0, 0, 0,
  0, 0, 0, 0, 0, 0, 0, 0, 0, 0, 0, 0, 0, 0, 0, 0, 0, 0, 0, 0, 0, 0, 0, 0, 0,
  0, 70, 1, 6, 23, 19, 19, 1, 117, 116, 97, 98, 108, 101, 98, 97, 100, 98, 97,
  100, 2, 67, 82, 69, 65, 84, 69, 32, 84, 65, 66, 76, 69, 32, 98, 97, 100, 32,
  40, 105, 100, 32, 105, 110, 116, 101, 103, 101, 114, 32, 112, 114, 105, 109,
  97, 114, 121, 32, 107, 101, 121, 44, 32, 110, 97, 109, 101, 32, 116, 101,
  120, 116, 41, 0, 0, 0, 0, 0, 0, 0, 0, 0, 0, 0, 0, 0, 0, 0, 0, 0, 0, 0, 0, 0,
  0, 0, 0, 0, 0, 0, 0, 0, 0, 0, 0, 0, 0, 13, 0, 0, 0, 1, 0, 0, 0, 0, 100, 0,
  0, 0, 0, 0, 0, 0, 0, 0, 0, 0, 0, 0, 0, 0, 0, 0, 0, 0, 0, 0, 0, 0, 0, 0, 0,
  0, 0, 0, 0, 0, 0, 0, 0, 0, 0, 0, 0, 0, 0, 0, 0, 0, 0, 0, 0, 0, 0, 0, 0, 0,
  0, 0, 0, 0, 0, 0, 0, 0, 0, 0, 0, 0, 0, 0, 0, 0, 0, 0, 0, 0, 0, 0, 0, 0, 0,
  0, 0, 0, 0, 0, 0, 0, 0, 0, 0, 0, 0, 0, 0, 5, 1, 3, 0, 37, 104, 105, 0, 0, 0,
  0, 0, 0, 0, 0, 0, 0, 0, 0, 0, 0, 0, 0, 0, 0, 0, 0, 0, 0, 0, 0, 0, 0, 0, 0,
  0, 0, 0, 0, 0, 0, 0, 0, 0, 0, 0, 0, 0, 0, 0, 0, 0, 0, 0, 0, 0, 0, 0, 0, 0,
  0, 0, 0, 0, 0, 0, 0, 0, 0, 0, 0, 0, 0, 0, 0, 0, 0, 0, 0, 0, 0, 0, 0, 0, 0,
  0, 0, 0, 0, 0, 0, 0, 0, 0, 0, 0, 0, 0, 0, 0, 0, 0, 0, 0, 0, 0, 0, 0, 0, 0,
  0, 0, 0, 0, 0, 0, 0, 0, 0, 0, 0, 0, 0, 0, 0, 0, 0, 0, 0, 0, 0, 0, 0, 0, 0,
  0, 0, 0, 0, 0, 0, 0, 0, 0, 0, 0, 0, 0, 0, 0, 0, 0, 0, 0, 0, 0]

/-- Concrete 101-byte file whose page-1 type byte (offset 100) is the unrecognized tag 2. -/
def fileC8 : List Nat :=
  [
  0, 0, 0, 0, 0, 0, 0, 0, 0, 0, 0, 0, 0, 0, 0, 0, 1, 0, 0, 0, 0, 0, 0, 0, 0,
  0, 0, 0, 0, 0, 0, 0, 0, 0, 0, 0, 0, 0, 0, 0, 0, 0, 0, 0, 0, 0, 0, 0, 0, 0,
  0, 0, 0, 0, 0, 0, 0, 0, 0, 0, 0, 0, 0, 0, 0, 0, 0, 0, 0, 0, 0, 0, 0, 0, 0,
  0, 0, 0, 0, 0, 0, 0, 0, 0, 0, 0, 0, 0, 0, 0, 0, 0, 0, 0, 0, 0, 0, 0, 0, 0,
  2]

/-- Concrete 520-byte database, page size 256: page 1 is an interior page with one cell pointing at page 2 (unrecognized type tag 2) and rightmost child page 3 (a leaf with 1 cell). -/
def fileC8b : List Nat :=
  [
  0, 0, 0, 0, 0, 0, 0, 0, 0, 0, 0, 0, 0, 0, 0, 0, 1, 0, 0, 0, 0, 0, 0, 0, 0,
  0, 0, 0, 0, 0, 0, 0, 0, 0, 0, 0, 0, 0, 0, 0, 0, 0, 0, 0, 0, 0, 0, 0, 0, 0,
  0, 0, 0, 0, 0, 0, 0, 0, 0, 0, 0, 0, 0, 0, 0, 0, 0, 0, 0, 0, 0, 0, 0, 0, 0,
  0, 0, 0, 0, 0, 0, 0, 0, 0, 0, 0, 0, 0, 0, 0, 0, 0, 0, 0, 0, 0, 0, 0, 0, 0,
  5, 0, 0, 0, 1, 0, 0, 0, 0, 0, 0, 3, 0, 130, 0, 0, 0, 0, 0, 0, 0, 0, 0, 0, 0,
  0, 0, 0, 0, 0, 0, 0, 0, 2, 0, 0, 0, 0, 0, 0, 0, 0, 0, 0, 0, 0, 0, 0, 0, 0,
  0, 0, 0, 0, 0, 0, 0, 0, 0, 0, 0, 0, 0, 0, 0, 0, 0, 0, 0, 0, 0, 0, 0, 0, 0,
  0, 0, 0, 0, 0, 0, 0, 0, 0, 0, 0, 0, 0, 0, 0, 0, 0, 0, 0, 0, 0, 0, 0, 0, 0,
  0, 0, 0, 0, 0, 0, 0, 0, 0, 0, 0, 0, 0, 0, 0, 0, 0, 0, 0, 0, 0, 0, 0, 0, 0,
  0, 0, 0, 0, 0, 0, 0, 0, 0, 0, 0, 0, 0, 0, 0, 0, 0, 0, 0, 0, 0, 0, 0, 0, 0,
  0, 0, 0, 0, 0, 0, 2, 0, 0, 0, 0, 0, 0, 0, 0, 0, 0, 0, 0, 0, 0, 0, 0, 0, 0,
  0, 0, 0, 0, 0, 0, 0, 0, 0, 0, 0, 0, 0, 0, 0, 0, 0, 0, 0, 0, 0, 0, 0, 0, 0,
  0, 0, 0, 0, 0, 0, 0, 0, 0, 0, 0, 0, 0, 0, 0, 0, 0, 0, 0, 0, 0, 0, 0, 0, 0,
  0, 0, 0, 0, 0, 0, 0, 0, 0, 0, 0, 0, 0, 0, 0, 0, 0, 0, 0, 0, 0, 0, 0, 0, 0,
  0, 0, 0, 0, 0, 0, 0, 0, 0, 0, 0, 0, 0, 0, 0, 0, 0, 0, 0, 0, 0, 0, 0, 0, 0,
  0, 0, 0, 0, 0, 0, 0, 0, 0, 0, 0, 0, 0, 0, 0, 0, 0, 0, 0, 0, 0, 0, 0, 0, 0,
  0, 0, 0, 0, 0, 0, 0, 0, 0, 0, 0, 0, 0, 0, 0, 0, 0, 0, 0, 0, 0, 0, 0, 0, 0,
  0, 0, 0, 0, 0, 0, 0, 0, 0, 0, 0, 0, 0, 0, 0, 0, 0, 0, 0, 0, 0, 0, 0, 0, 0,
  0, 0, 0, 0, 0, 0, 0, 0, 0, 0, 0, 0, 0, 0, 0, 0, 0, 0, 0, 0, 0, 0, 0, 0, 0,
  0, 0, 0, 0, 0, 0, 0, 0, 0, 0, 0, 0, 0, 0, 0, 0, 0, 0, 0, 0, 0, 0, 0, 0, 0,
  0, 0, 0, 0, 0, 0, 0, 0, 0, 0, 0, 0, 13, 0, 0, 0, 1, 0, 0, 0]

/-- C2: the source decodes serial type 3 (resp. 5) by prepending the zero
pad byte and then arithmetic-shifting right by 8 (resp. 16) bits, which
yields the top 16 (resp. 32) bits of the stored quantity instead of the
claimed sign-extended 24-bit (resp. 48-bit) big-endian value: bytes
00 00 01 denote 1 but decode to "0", and an all-ones pattern denotes -1
but decodes to "65535" / "4294967295". -/
theorem c2_serial_types_3_and_5_not_sign_extended :
    processSerialType 3 [0, 0, 1] = "0" ∧
    processSerialType 3 [255, 255, 255] = "65535" ∧
    processSerialType 5 [255, 255, 255, 255, 255, 255] = "4294967295" :=
  ⟨rfl, rfl, rfl⟩

/-- C3: `processSerialType` itself returns the "Invalid String" /
"Invalid BLOB" sentinels when handed fewer bytes than declared, but the
row traversal slices `data[bodyOffset : bodyOffset+size]` first, so a
declared length exceeding the record payload is an out-of-bounds slice
panic (`none`) before the sentinel can be produced: on `fileC3` the
oversized text column of the single row aborts the query. -/
theorem c3_oversized_text_declared_length_panics :
    processSerialType 37 [104, 105] = "Invalid String" ∧
    processSerialType 18 [104, 105] = "Invalid BLOB" ∧
    readDataFromMultipleColumns fileC3 8 1 256 "bad" ["name"] [] = none :=
  ⟨rfl, rfl, rfl⟩

/-- C1 counterexample: on the claim's own scenario (schema row for
widgets, rows (1, apple, 1.5) and (2, banana, 2.0) with the
integer-primary-key first column stored as serial type 0),
`selectColumns("widgets", ["name"], "id", "2")` does not return
`["banana"]`. -/
theorem c1_counterexample :
    readDataFromMultipleColumns fileC1 8 1 256 "widgets" ["name"]
      ["id", "=", "2"] ≠ some ["banana"] := by
  decide

/-- C1 amended: the WHERE equality is evaluated during column decoding
against the stored decoded value of the WHERE column, and the row-id
overwrite of column 0 happens only afterwards; since the
integer-primary-key first column is stored as NULL, a WHERE on `id`
compares "NULL" to the literal and filters out every row, so the query
returns the empty result.  Without a WHERE the same pipeline projects
`["apple", "banana"]`. -/
theorem c1_amended_where_on_rowid_column_matches_nothing :
    readDataFromMultipleColumns fileC1 8 1 256 "widgets" ["name"]
      ["id", "=", "2"] = some [] ∧
    readDataFromMultipleColumns fileC1 8 1 256 "widgets" ["name"] [] =
      some ["apple", "banana"] :=
  ⟨rfl, rfl⟩

/-- C4 counterexample: for the table name "gadgets", absent from
`fileC1`'s schema, `selectColumns` does not return an empty result set:
it aborts (the empty creation statement is sliced as
`createStatement[0:-1]`, an out-of-bounds string slice panic). -/
theorem c4_counterexample :
    readDataFromMultipleColumns fileC1 8 1 256 "gadgets" ["name"] [] = none ∧
    (none : Option (List String)) ≠ some [] := by
  exact ⟨rfl, by decide⟩

/-- C4 amended: for a table name not present in the schema, `countRows`
returns zero without error, but `selectColumns` panics on the
out-of-range slice of the empty creation statement instead of returning
an empty result set. -/
theorem c4_amended_missing_table :
    getCountInATable fileC1 8 1 256 "gadgets" = some 0 ∧
    readDataFromMultipleColumns fileC1 8 1 256 "gadgets" ["name"] [] = none :=
  ⟨rfl, rfl⟩

/-- C6 counterexample: `fileC6`'s schema holds an index row
(index, widx, widgets, 3, x) before the widgets table row
(table, widgets, widgets, 2, ...).  The claim mandates that row counting
accept exactly the rows whose column 0 is "table", which would make
`countRows("widgets")` equal the leaf-cell count of page 2 (namely 2);
instead `getCountInATable` matches the index row (its text column 2 is
"widgets") and counts page 3, returning 1. -/
theorem c6_counterexample :
    getCountInATable fileC6 8 1 256 "widgets" = some 1 ∧
    countRecordsInBTree fileC6 8 2 256 = 2 ∧
    getCountInATable fileC6 8 1 256 "widgets" ≠
      some (countRecordsInBTree fileC6 8 2 256) := by
  exact ⟨rfl, rfl, by decide⟩

/-- C6 amended: only `selectColumns`'s schema scan requires 5 or more
columns with column 0 equal to "table" and column 2 equal to the
requested name (so on `fileC6` it resolves the widgets table to root
page 2 and projects `["apple", "banana"]`); `getCountInATable` accepts
any leaf row whose text column 2 equals the name, ignoring column 0 and
the column count, and so takes its root page from the index row. -/
theorem c6_amended_count_ignores_entry_type :
    readDataFromMultipleColumns fileC6 8 1 256 "widgets" ["name"] [] =
      some ["apple", "banana"] ∧
    getCountInATable fileC6 8 1 256 "widgets" = some 1 :=
  ⟨rfl, rfl⟩
/-- C8: a page whose type byte is neither 0x0D (table leaf) nor 0x05
(table interior) is treated as an empty subtree by every traversal that
visits it: record counting yields 0, table listing, column projection
and the schema-driven operations yield empty results, and none of them
panics. -/
theorem c8_unknown_page_tag_is_empty_subtree (file : List Nat) (fuel : Nat)
    (pageNumber pageSize : Int) (b : Nat) (tableName : String)
    (colNames : List String) (rawWhere : List String) (colIdx : List Int)
    (wc : WhereCondition)
    (hread : readBytesAtOffset file (pageOffsetOf pageNumber pageSize) 1 = some [b])
    (h13 : b ≠ 13) (h5 : b ≠ 5) :
    countRecordsInBTree file (fuel + 1) pageNumber pageSize = 0 ∧
    getTablesNamesInBTree file (fuel + 1) pageNumber pageSize = some [] ∧
    getCountInATable file (fuel + 1) pageNumber pageSize tableName = some 0 ∧
    getColumnDataHelper file (fuel + 1) pageNumber pageSize colIdx wc = some [] ∧
    readDataFromMultipleColumns file (fuel + 1) pageNumber pageSize tableName
      colNames rawWhere = some [] := by
  refine ⟨?_, ?_, ?_, ?_, ?_⟩ <;>
    simp [countRecordsInBTree, getTablesNamesInBTree, getCountInATable,
      getColumnDataHelper, readDataFromMultipleColumns, hread, h13, h5]

/-- Witness for C8 at a concrete input: `fileC8`'s page 1 carries the
unrecognized type tag 2 and every traversal treats it as empty; the
final conjunct shows, on `fileC8b`, that an interior page's traversal
continues past an unrecognized child page (page 2) and still counts the
sibling leaf (page 3, one cell). -/
theorem c8_unknown_page_tag_is_empty_subtree_witness :
    (countRecordsInBTree fileC8 1 1 256 = 0 ∧
     getTablesNamesInBTree fileC8 1 1 256 = some [] ∧
     getCountInATable fileC8 1 1 256 "widgets" = some 0 ∧
     getColumnDataHelper fileC8 1 1 256 [0] ⟨-1, ""⟩ = some [] ∧
     readDataFromMultipleColumns fileC8 1 1 256 "widgets" ["name"] [] = some []) ∧
    countRecordsInBTree fileC8b 3 1 256 = 1 :=
  ⟨c8_unknown_page_tag_is_empty_subtree fileC8 0 1 256 2 "widgets" ["name"] []
      [0] ⟨-1, ""⟩ rfl (by decide) (by decide),
    rfl⟩
theorem leavesInteriorFold_out (g : Int → List Nat) (file : List Nat)
    (pn po : Int) :
    ∀ (is : List Nat) (acc : List Nat),
      leavesInteriorFold g file pn po is acc =
        acc ++ leavesInteriorFold g file pn po is [] := by
  intro is
  induction is with
  | nil => intro acc; simp [leavesInteriorFold]
  | cons i rest ih =>
    intro acc
    simp only [leavesInteriorFold]
    split
    · exact ih acc
    · rw [ih (acc ++ _), ih (List.nil ++ _)]
      simp

theorem countInteriorFold_sum (g : Int → Int) (gs : Int → List Nat)
    (file : List Nat) (pn po : Int)
    (hg : ∀ c, g c = ((gs c).sum : Int)) :
    ∀ (is : List Nat) (acc : Int),
      countInteriorFold g file pn po is acc =
        acc + ((leavesInteriorFold gs file pn po is []).sum : Int) := by
  intro is
  induction is with
  | nil => intro acc; simp [countInteriorFold, leavesInteriorFold]
  | cons i rest ih =>
    intro acc
    simp only [countInteriorFold, leavesInteriorFold]
    split
    · exact ih acc
    · rw [ih, hg]
      simp only [List.nil_append]
      conv_rhs => rw [leavesInteriorFold_out]
      push_cast [List.sum_append]
      ring

/-- C5: for every file, fuel, root page and page size, the record count
computed by `countRecordsInBTree` equals the sum of the 2-byte cell
counts of the leaf (0x0D) pages reachable from the root, as collected in
traversal order by `specLeafCellCounts`; interior (0x05) pages contribute
no entry of their own to that list. -/
theorem c5_count_is_sum_of_reachable_leaf_cell_counts :
    ∀ (fuel : Nat) (file : List Nat) (pageNumber pageSize : Int),
      countRecordsInBTree file fuel pageNumber pageSize =
        ((specLeafCellCounts file fuel pageNumber pageSize).sum : Int) := by
  intro fuel
  induction fuel with
  | zero => intro file pn psz; simp [countRecordsInBTree, specLeafCellCounts]
  | succ f ih =>
    intro file pn psz
    simp only [countRecordsInBTree, specLeafCellCounts]
    split
    · simp
    · split
      · simp
      · split
        · rw [countInteriorFold_sum (fun c => countRecordsInBTree file f c psz)
            (fun c => specLeafCellCounts file f c psz) file pn _
            (fun c => ih file c psz), ih]
          push_cast [List.sum_append]
          ring
        · simp
theorem goLeafFold_filter (f : Nat → Option (Option String)) :
    ∀ (is : List Nat) (acc : List String),
      goLeafFold f is (acc.filter (fun s => !(s == ""))) =
        (specLeafFold f is acc).map (List.filter (fun s => !(s == ""))) := by
  intro is
  induction is with
  | nil => intro acc; simp [goLeafFold, specLeafFold]
  | cons i rest ih =>
    intro acc
    simp only [goLeafFold, specLeafFold]
    cases f i with
    | none => simp
    | some o =>
      cases o with
      | none => exact ih acc
      | some s =>
        simp only []
        by_cases hs : s = ""
        · subst hs
          have h2 : (acc ++ [""]).filter (fun s => !(s == "")) =
              acc.filter (fun s => !(s == "")) := by simp
          rw [if_pos rfl, ← h2, ih]
        · have h2 : (acc ++ [s]).filter (fun s => !(s == "")) =
              acc.filter (fun s => !(s == "")) ++ [s] := by simp [hs]
          rw [if_neg hs, ← h2, ih]

theorem interiorFold_filter (g gs : Int → Option (List String))
    (file : List Nat) (pn po : Int)
    (hg : ∀ c, g c = (gs c).map (List.filter (fun s => !(s == "")))) :
    ∀ (is : List Nat) (acc : List String),
      interiorFold g file pn po is (acc.filter (fun s => !(s == ""))) =
        (interiorFold gs file pn po is acc).map
          (List.filter (fun s => !(s == ""))) := by
  intro is
  induction is with
  | nil => intro acc; simp [interiorFold]
  | cons i rest ih =>
    intro acc
    simp only [interiorFold]
    split
    · exact ih acc
    · rw [hg]
      cases gs (wrap32 (beUint _ 4)) with
      | none => simp
      | some xs =>
        simp only [Option.map_some']
        rw [← List.filter_append, ih]
/-- C9: `getColumnDataHelper` emits exactly the projected strings of the
rows that pass the WHERE filter, with the empty ones removed: a passing
row whose projected output is the empty string (for instance when no
requested column resolved to a valid index) contributes no output line,
and nothing else is dropped. -/
theorem c9_empty_projection_rows_omitted :
    ∀ (fuel : Nat) (file : List Nat) (pageNumber pageSize : Int)
      (colIdx : List Int) (wc : WhereCondition),
      getColumnDataHelper file fuel pageNumber pageSize colIdx wc =
        (specColumnData file fuel pageNumber pageSize colIdx wc).map
          (List.filter (fun s => !(s == ""))) := by
  intro fuel
  induction fuel with
  | zero => intro file pn psz ci wc; simp [getColumnDataHelper, specColumnData]
  | succ f ih =>
    intro file pn psz ci wc
    simp only [getColumnDataHelper, specColumnData]
    split
    · simp
    · split
      · have h0 := goLeafFold_filter
          (rowOutcome file pn (pageOffsetOf pn psz) ci wc)
          (List.range (getCellCount file (pageOffsetOf pn psz))) []
        simpa using h0
      · split
        · have hfold := interiorFold_filter
            (fun c => getColumnDataHelper file f c psz ci wc)
            (fun c => specColumnData file f c psz ci wc)
            file pn (pageOffsetOf pn psz)
            (fun c => ih file c psz ci wc)
            (List.range (getCellCount file (pageOffsetOf pn psz))) []
          simp only [List.filter_nil] at hfold
          rw [hfold, ih]
          cases interiorFold (fun c => specColumnData file f c psz ci wc)
              file pn (pageOffsetOf pn psz)
              (List.range (getCellCount file (pageOffsetOf pn psz))) [] with
          | none => simp
          | some acc =>
            cases specColumnData file f
                (getRightmostChildPageNumber file (pageOffsetOf pn psz)) psz ci wc with
            | none => simp
            | some xs => simp [List.filter_append]
        · simp
/-- Predicate "this column definition's first whitespace-delimited token
is the requested name", used to characterize the resolution loop. -/
def firstTokenIs (colName : String) (d : String) : Bool :=
  match goFields (goTrimSpace d) with
  | [] => false
  | w :: _ => w == colName

theorem resolveInner_eq (colName : String) :
    ∀ (defs : List String) (k : Int),
      resolveInner defs colName k =
        (defs.findIdx? (firstTokenIs colName)).map (fun (j : Nat) => k + (j : Int)) := by
  intro defs
  induction defs with
  | nil => intro k; simp [resolveInner]
  | cons d rest ih =>
    intro k
    rw [resolveInner, List.findIdx?_cons, List.findIdx?_succ]
    cases hf : goFields (goTrimSpace d) with
    | nil =>
      have hp : firstTokenIs colName d = false := by simp [firstTokenIs, hf]
      rw [hp]
      simp only [Bool.false_eq_true, if_false, ih (k + 1), Option.map_map]
      cases List.findIdx? (firstTokenIs colName) rest with
      | none => simp
      | some j =>
        simp only [Option.map_some', Option.some_inj, Function.comp_apply]
        push_cast
        ring
    | cons w ws =>
      by_cases hw : w = colName
      · have hp : firstTokenIs colName d = true := by simp [firstTokenIs, hf, hw]
        simp [hp, hw]
      · have hp : firstTokenIs colName d = false := by simp [firstTokenIs, hf, hw]
        simp only []
        rw [hp, if_neg hw]
        simp only [Bool.false_eq_true, if_false, ih (k + 1), Option.map_map]
        cases List.findIdx? (firstTokenIs colName) rest with
        | none => simp
        | some j =>
          simp only [Option.map_some', Option.some_inj, Function.comp_apply]
          push_cast
          ring

theorem foldl_resolve_append (columnDefs : List String) :
    ∀ (colNames : List String) (acc : List Int),
      colNames.foldl
        (fun acc n =>
          match resolveInner columnDefs n 0 with
          | some i => acc ++ [i]
          | none => acc) acc =
        acc ++ colNames.filterMap (fun n => resolveInner columnDefs n 0) := by
  intro colNames
  induction colNames with
  | nil => intro acc; simp
  | cons n rest ih =>
    intro acc
    simp only [List.foldl_cons, List.filterMap_cons]
    cases resolveInner columnDefs n 0 with
    | none => exact ih acc
    | some i => rw [ih (acc ++ [i])]; simp

/-- C10: the requested-column resolution of
`readDataFromMultipleColumns` maps each requested name, in requested
order, to the index of the first column definition whose first
whitespace-delimited token equals it, and silently drops every name with
no such definition: the resulting index list (which alone drives the
projection, so no error is raised and no placeholder is emitted for a
dropped name) is exactly the `filterMap` of per-name resolution. -/
theorem c10_unmatched_requested_columns_dropped :
    ∀ (colNames columnDefs : List String),
      goResolveColIdxs colNames columnDefs =
        colNames.filterMap (fun n =>
          (columnDefs.findIdx? (firstTokenIs n)).map (fun (j : Nat) => (j : Int))) := by
  intro colNames columnDefs
  unfold goResolveColIdxs
  rw [foldl_resolve_append]
  simp only [List.nil_append]
  congr 1
  funext n
  rw [resolveInner_eq]
  cases List.findIdx? (firstTokenIs n) columnDefs with
  | none => simp
  | some j => simp
/-- Case view of `varintLoop` used to relate it to `specVarint`: the
position of the first terminating byte in the remaining window decides
the outcome. -/
def varintView (w : List Nat) (i v r : Nat) : Nat × Nat :=
  match (w.take (8 - i)).findIdx? (fun b => decide (b % 256 < 128)) with
  | some j =>
    (((w.take (8 - i)).take (j + 1)).foldl (fun a b => a * 128 + b % 256 % 128) v,
      r + (j + 1))
  | none =>
    match w.get? (8 - i) with
    | some b9 =>
      ((w.take (8 - i)).foldl (fun a b => a * 128 + b % 256 % 128) v * 256 + b9 % 256,
        r + (9 - i))
    | none =>
      ((w.take (8 - i)).foldl (fun a b => a * 128 + b % 256 % 128) v, r + w.length)

theorem varintLoop_eq_view :
    ∀ (w : List Nat) (i v r : Nat), i + w.length ≤ 9 → i ≤ 8 →
      varintLoop w i v r = varintView w i v r := by
  intro w
  induction w with
  | nil =>
    intro i v r h9 h8
    simp [varintLoop, varintView]
  | cons b rest ih =>
    intro i v r h9 h8
    by_cases hi : i < 8
    · have htake : (b :: rest).take (8 - i) = b :: rest.take (7 - i) := by
        have h : 8 - i = (7 - i) + 1 := by omega
        rw [h, List.take_succ_cons]
      rw [varintLoop, if_pos hi, varintView, htake, List.findIdx?_cons,
        List.findIdx?_succ]
      by_cases hb : b % 256 < 128
      · simp [hb]
      · have hd : decide (b % 256 < 128) = false := by simp [hb]
        rw [hd]
        simp only [Bool.false_eq_true, if_false]
        rw [if_neg hb,
          ih (i + 1) (v * 128 + b % 256 % 128) (r + 1)
            (by simp only [List.length_cons] at h9; omega) (by omega),
          varintView]
        have h78 : 8 - (i + 1) = 7 - i := by omega
        rw [h78]
        cases hfind : (rest.take (7 - i)).findIdx? (fun b => decide (b % 256 < 128)) with
        | some j =>
          simp only [Option.map_some', List.take_succ_cons, List.foldl_cons,
            Prod.mk.injEq]
          exact ⟨trivial, by omega⟩
        | none =>
          simp only [Option.map_none']
          have hget : (b :: rest).get? (8 - i) = rest.get? (7 - i) := by
            have h : 8 - i = (7 - i) + 1 := by omega
            rw [h, List.get?_cons_succ]
          rw [hget]
          cases hg : rest.get? (7 - i) with
          | some b9 =>
            simp only [List.foldl_cons, Prod.mk.injEq]
            exact ⟨trivial, by omega⟩
          | none =>
            simp only [List.foldl_cons, List.length_cons, Prod.mk.injEq]
            exact ⟨trivial, by omega⟩
    · have hi8 : i = 8 := by omega
      subst hi8
      rw [varintLoop, if_neg hi, varintView]
      simp
/-- C7: `readVarint` satisfies the specification's varint contract,
transcribed as `specVarint`: `(0, 0)` at or past the end of the data;
otherwise the low 7 bits of up to the first 8 window bytes are
accumulated most-significant-first, stopping at the first byte with a
clear high bit (1-8 bytes consumed); after 8 continuation bytes a 9th
byte is consumed whole and terminates; the scan window is clamped to the
available bytes so no index past the end is ever read. -/
theorem c7_readVarint_matches_spec :
    ∀ (data : List Nat) (index : Nat),
      readVarint data index = specVarint data index := by
  intro data index
  rw [readVarint, specVarint]
  by_cases h : data.length ≤ index
  · rw [if_pos h, if_pos h]
  · rw [if_neg h, if_neg h,
      varintLoop_eq_view ((data.drop index).take 9) 0 0 0
        (by simp only [List.length_take, Nat.zero_add]; omega) (by omega),
      varintView]
    simp only [Nat.sub_zero, Nat.zero_add, accum7]
